import Mathlib

/-!
Shallow embedding of the sports-court reservation API (`src/main.go`).

Modelling conventions:
* Go `uint` primary keys become `Nat`; fresh primary keys are drawn from
  auto-increment counters stored in the `Store`.
* Go `float64` monetary amounts become `Rat` (exact arithmetic; the source
  performs only `+`, `-`, `*` on them, so every equality stated below is the
  literal computation the source performs).
* The GORM-backed database becomes the explicit record `Store`; each HTTP
  handler becomes a pure function from a `Store` (and the parsed request)
  to a new `Store` and an `HResult` carrying the HTTP status.
* `db.Where("phone = ?", p).First` / `db.First(&x, id)` become `List.find?`
  over the corresponding table.
* `db.Create(&booking)` (GORM saving the aggregate in one transaction)
  becomes a single pure state transition: a non-zero embedded `Customer`
  struct is inserted as a fresh row (GORM skips zero-valued associations),
  and each element of `Items` is inserted as a `BookingItem` row keyed to
  the fresh booking id.
* `db.Model(&booking).Updates(input)` with a struct argument updates only
  the non-zero fields of `input` (GORM struct-update semantics).
* `db.Unscoped().Delete(&Booking{}, id)` hard-deletes the row; the
  `OnDelete:CASCADE` constraint on `Items` removes the child rows.
-/

/-- `Customer` model from `src/main.go`: `ID`, `Phone` (unique), `Name`,
`LoyaltyPoints`. (`CreatedAt` is a DB-filled timestamp, irrelevant to every
claim, and omitted.) -/
structure Customer where
  id : Nat
  phone : String
  name : String
  loyaltyPoints : Int
deriving Repr, DecidableEq

/-- The zero value `Customer{}` of the Go struct. -/
def Customer.zero : Customer :=
  { id := 0, phone := "", name := "", loyaltyPoints := 0 }

/-- `InventoryItem` model: `ID`, `Name`, `Type`, `CurrentPrice`, `IsActive`. -/
structure InventoryItem where
  id : Nat
  name : String
  itemType : String
  currentPrice : Rat
  isActive : Bool
deriving Repr, DecidableEq

/-- `BookingItem` model as a persisted row: `ID`, `BookingID`, `ItemID`,
`Quantity`, `PriceAtBooking`. -/
structure BookingItem where
  id : Nat
  bookingID : Nat
  itemID : Nat
  quantity : Int
  priceAtBooking : Rat
deriving Repr, DecidableEq

/-- A line item as it appears in the parsed request body of
`POST /bookings`: `ItemID`, `Quantity`, and whatever `PriceAtBooking`
the JSON supplied (the Go zero value `0` when absent). -/
structure ReqItem where
  itemID : Nat
  quantity : Int
  priceAtBooking : Rat
deriving Repr, DecidableEq

/-- `Booking` as a persisted row (the columns of the `bookings` table):
`Customer` and `Items` are associations held in other tables. -/
structure BookingRow where
  id : Nat
  customerID : Nat
  courtNumber : Int
  bookingDate : String
  startTime : String
  endTime : String
  courtPrice : Rat
  itemsTotal : Rat
  discountAmount : Rat
  finalTotal : Rat
  paymentStatus : String
deriving Repr, DecidableEq

/-- The `Booking` struct as parsed by `c.BodyParser` in `createBooking`:
it embeds a `Customer` descriptor and a list of line items. (`ID` and
`CreatedAt` are DB-assigned; `ItemsTotal` and `FinalTotal` are parsed but
unconditionally overwritten by the handler before the write.) -/
structure BookingReq where
  customerID : Nat
  customer : Customer
  courtNumber : Int
  bookingDate : String
  startTime : String
  endTime : String
  courtPrice : Rat
  itemsTotal : Rat
  discountAmount : Rat
  finalTotal : Rat
  paymentStatus : String
  items : List ReqItem
deriving Repr, DecidableEq

/-- The database state: the four tables plus auto-increment counters for
the three tables this service inserts into. -/
structure Store where
  customers : List Customer
  inventory : List InventoryItem
  bookings : List BookingRow
  bookingItems : List BookingItem
  nextCustomerID : Nat
  nextBookingID : Nat
  nextBookingItemID : Nat
deriving Repr, DecidableEq

/-- Outcome of a handler: an HTTP status together with either a JSON body
or an error message (the `fiber.Map{"error": ...}` bodies). -/
inductive HResult (α : Type) where
  | ok (status : Nat) (body : α)
  | err (status : Nat) (msg : String)
deriving Repr, DecidableEq

/-- The HTTP status of a handler outcome. -/
def HResult.status {α : Type} : HResult α → Nat
  | .ok st _ => st
  | .err st _ => st

/-- `db.Where("phone = ?", phone).First(&existingCust)`. -/
def findCustomerByPhone (s : Store) (phone : String) : Option Customer :=
  s.customers.find? (fun c => c.phone = phone)

/-- `db.First(&invItem, item.ItemID)`: look up an inventory item by
primary key. -/
def findInventoryItem (s : Store) (iid : Nat) : Option InventoryItem :=
  s.inventory.find? (fun it => it.id = iid)

/-- Customer-resolution step of `createBooking` (src/main.go lines
138-155): with a non-empty embedded phone, look the phone up; when found,
link `CustomerID` to the existing row and blank the embedded `Customer`
struct; otherwise leave the request unchanged so the write creates the
customer. -/
def resolveCustomer (s : Store) (b : BookingReq) : BookingReq :=
  if b.customer.phone ≠ "" then
    match findCustomerByPhone s b.customer.phone with
    | some existingCust =>
        { b with customerID := existingCust.id, customer := Customer.zero }
    | none => b
  else b

/-- Price-snapshot loop of `createBooking` (src/main.go lines 159-167):
for each line item whose `ItemID` resolves, overwrite `PriceAtBooking`
with the inventory item's `CurrentPrice` and accumulate
`CurrentPrice * Quantity`; unresolved items are left untouched and
contribute nothing. Returns the rewritten items and `itemsTotal`. -/
def snapshotItems (s : Store) : List ReqItem → List ReqItem × Rat
  | [] => ([], 0)
  | item :: rest =>
      let rest1 := (snapshotItems s rest).1
      let total := (snapshotItems s rest).2
      match findInventoryItem s item.itemID with
      | some invItem =>
          ({ item with priceAtBooking := invItem.currentPrice } :: rest1,
            invItem.currentPrice * (item.quantity : Rat) + total)
      | none => (item :: rest1, total)

/-- GORM assigning fresh primary keys and the parent's `BookingID` to each
nested `BookingItem` row during `db.Create(&booking)`. -/
def assignItemIDs (startID bid : Nat) : List ReqItem → List BookingItem
  | [] => []
  | it :: rest =>
      { id := startID, bookingID := bid, itemID := it.itemID,
        quantity := it.quantity, priceAtBooking := it.priceAtBooking }
        :: assignItemIDs (startID + 1) bid rest

/-- The constraints `db.AutoMigrate` installs (under the default
`gorm.Config{}`) that `db.Create(&booking)`'s inserts must satisfy:

* `booking_items.item_id REFERENCES inventory_items(id)` — from the
  `InventoryItem ... foreignKey:ItemID` association on `BookingItem`:
  every inserted line item's `ItemID` must name an existing inventory
  row (the pricing loop does NOT remove unresolved items, so a dangling
  reference reaches the insert);
* `bookings.customer_id REFERENCES customers(id)` — from the
  `Customer ... foreignKey:CustomerID` association on `Booking`: when no
  fresh customer is inserted (the embedded struct is zero), the booking's
  `CustomerID` must name an existing customer row; a freshly inserted
  customer satisfies it by construction;
* `customers.phone` is `unique` — a freshly inserted customer's phone
  must not collide with an existing row.

`db.Create` runs as one transaction: if any insert violates these, the
whole write rolls back and the handler returns 500. -/
def createConstraintsOK (s : Store) (req : BookingReq) : Prop :=
  let req1 := resolveCustomer s req
  (∀ ri ∈ (snapshotItems s req1.items).1,
    (findInventoryItem s ri.itemID).isSome = true) ∧
  (req1.customer = Customer.zero →
    ∃ c ∈ s.customers, c.id = req1.customerID) ∧
  (¬ req1.customer = Customer.zero →
    ∀ c ∈ s.customers, ¬ c.phone = req1.customer.phone)

instance instDecCreateConstraintsOK (s : Store) (req : BookingReq) :
    Decidable (createConstraintsOK s req) := by
  unfold createConstraintsOK
  infer_instance

/-- `createBooking` (src/main.go lines 130-179) after a successful body
parse: resolve the customer, snapshot line-item prices, compute the
totals, and persist the aggregate with `db.Create` — inserting a fresh
customer row exactly when the embedded struct is non-zero, the booking
row, and one `BookingItem` row per request line item, all in one
transaction. When an insert violates a constraint `AutoMigrate`
installed (`createConstraintsOK` fails), the transaction rolls back —
the store is unchanged — and line 175 answers
500 "Could not save booking"; otherwise the persisted booking is
answered with 201. An empty `PaymentStatus` is refreshed to the column
default `PENDING` (`gorm:"default:'PENDING'"`; the numeric `default:0`
tags are no-ops on zero values). -/
def createBooking (s : Store) (req : BookingReq) : Store × HResult BookingRow :=
  let req1 := resolveCustomer s req
  let items1 := (snapshotItems s req1.items).1
  let itemsTotal := (snapshotItems s req1.items).2
  let finalTotal := req1.courtPrice + itemsTotal - req1.discountAmount
  let custID :=
    if req1.customer = Customer.zero then req1.customerID else s.nextCustomerID
  let customers1 :=
    if req1.customer = Customer.zero then s.customers
    else s.customers ++ [{ req1.customer with id := s.nextCustomerID }]
  let nextCust :=
    if req1.customer = Customer.zero then s.nextCustomerID
    else s.nextCustomerID + 1
  let bid := s.nextBookingID
  let row : BookingRow :=
    { id := bid, customerID := custID, courtNumber := req1.courtNumber,
      bookingDate := req1.bookingDate, startTime := req1.startTime,
      endTime := req1.endTime, courtPrice := req1.courtPrice,
      itemsTotal := itemsTotal, discountAmount := req1.discountAmount,
      finalTotal := finalTotal,
      paymentStatus :=
        if req1.paymentStatus = "" then "PENDING" else req1.paymentStatus }
  let newRows := assignItemIDs s.nextBookingItemID bid items1
  if createConstraintsOK s req then
    ({ customers := customers1, inventory := s.inventory,
       bookings := s.bookings ++ [row],
       bookingItems := s.bookingItems ++ newRows,
       nextCustomerID := nextCust,
       nextBookingID := bid + 1,
       nextBookingItemID := s.nextBookingItemID + items1.length },
      .ok 201 row)
  else
    (s, .err 500 "Could not save booking")

/-- The full `POST /bookings` handler: `none` stands for a body
`c.BodyParser` rejects (→ 400); otherwise the workflow runs and either
the persisted booking is returned with 201 or `db.Create`'s failure is
surfaced as 500. -/
def createBookingHandler (s : Store) (body : Option BookingReq) :
    Store × HResult BookingRow :=
  match body with
  | none => (s, .err 400 "Invalid Input")
  | some req => createBooking s req

/-- A booking as serialised by `GET /bookings` after the three `Preload`
calls: the row, its customer (if the foreign key resolves) and its
`BookingItem` children. -/
structure FullBooking where
  row : BookingRow
  customer : Option Customer
  items : List BookingItem
deriving Repr, DecidableEq

/-- The `Preload("Items").Preload("Customer")` population of one booking
row. (The nested `Preload("Items.InventoryItem")` only adds the
`inventory_details` of each child to the JSON and is not needed by any
claim.) -/
def preloadBooking (s : Store) (b : BookingRow) : FullBooking :=
  { row := b,
    customer := s.customers.find? (fun c => c.id = b.customerID),
    items := s.bookingItems.filter (fun it => it.bookingID = b.id) }

/-- `getBookings` (src/main.go lines 108-127): `dateParam` is what
`c.Query("booking_date")` returns — the empty string when the parameter
is missing. An empty parameter is rejected with 400 before the store is
queried; otherwise the bookings whose `booking_date` column equals the
parameter are returned, preloaded. Reads do not change the store. -/
def getBookings (s : Store) (dateParam : String) : HResult (List FullBooking) :=
  if dateParam = "" then
    .err 400 "Please provide a booking_date parameter"
  else
    .ok 200 ((s.bookings.filter (fun b => b.bookingDate = dateParam)).map
      (preloadBooking s))

/-- The `UpdateInput` struct of `updateBooking`; each field holds its Go
zero value (`""` / `0`) when the JSON body omits it. -/
structure UpdateInput where
  startTime : String
  endTime : String
  paymentStatus : String
  courtPrice : Rat
deriving Repr, DecidableEq

/-- `db.Model(&booking).Updates(input)` with a struct argument: GORM
updates only the non-zero fields of `input`. -/
def applyUpdates (b : BookingRow) (input : UpdateInput) : BookingRow :=
  { b with
    startTime := if input.startTime ≠ "" then input.startTime else b.startTime,
    endTime := if input.endTime ≠ "" then input.endTime else b.endTime,
    paymentStatus :=
      if input.paymentStatus ≠ "" then input.paymentStatus else b.paymentStatus,
    courtPrice := if input.courtPrice ≠ 0 then input.courtPrice else b.courtPrice }

/-- `updateBooking` (src/main.go lines 182-208) after a successful body
parse: `db.First(&booking, id)` (404 when absent), then
`db.Model(&booking).Updates(input)`, then the updated booking is returned
with the default 200 status. -/
def updateBooking (s : Store) (id : Nat) (input : UpdateInput) :
    Store × HResult BookingRow :=
  match s.bookings.find? (fun b => b.id = id) with
  | none => (s, .err 404 "Booking not found")
  | some booking =>
      let booking1 := applyUpdates booking input
      ({ s with bookings :=
          s.bookings.map (fun b => if b.id = id then booking1 else b) },
        .ok 200 booking1)

/-- `deleteBooking` (src/main.go lines 211-223):
`db.Unscoped().Delete(&Booking{}, id)` hard-deletes the matching booking
row, the `OnDelete:CASCADE` constraint removes its `BookingItem` children,
and `RowsAffected == 0` yields 404. -/
def deleteBooking (s : Store) (id : Nat) : Store × HResult String :=
  let matched := s.bookings.filter (fun b => b.id = id)
  if matched.length = 0 then
    (s, .err 404 "Booking not found")
  else
    ({ s with
        bookings := s.bookings.filter (fun b => ¬ b.id = id),
        bookingItems := s.bookingItems.filter (fun it => ¬ it.bookingID = id) },
      .ok 200 "Booking deleted successfully")

/-- Modelled from the spec: no endpoint of `src/main.go` mutates an
`InventoryItem` — the spec says inventory "created/deactivated out of
scope; read-only from the booking workflow's perspective". A later change
of an item's `CurrentPrice` is modelled as a direct update of that row,
touching nothing else. -/
def setInventoryPrice (s : Store) (iid : Nat) (p : Rat) : Store :=
  { s with inventory :=
      s.inventory.map (fun it =>
        if it.id = iid then { it with currentPrice := p } else it) }

/-- Spec-side sum over persisted line-item rows: `price_at_booking ×
quantity` over exactly those rows whose referenced inventory item is
found in `s`. -/
def resolvedRowsSum (s : Store) (rows : List BookingItem) : Rat :=
  ((rows.filter (fun it => (findInventoryItem s it.itemID).isSome)).map
    (fun it => it.priceAtBooking * (it.quantity : Rat))).sum

/-- Spec-side sum over request line items: `price_at_booking × quantity`
over exactly those items whose referenced inventory item is found in
`s`. -/
def resolvedReqSum (s : Store) (items : List ReqItem) : Rat :=
  ((items.filter (fun it => (findInventoryItem s it.itemID).isSome)).map
    (fun it => it.priceAtBooking * (it.quantity : Rat))).sum

/-! ### Concrete fixtures used by the witness theorems -/

/-- A store holding one customer (id 7, phone "555-1000") and one
inventory item (id 3, price 5). -/
def demoStore : Store :=
  { customers := [{ id := 7, phone := "555-1000", name := "Alice", loyaltyPoints := 0 }],
    inventory := [{ id := 3, name := "Racket", itemType := "rental",
                    currentPrice := 5, isActive := true }],
    bookings := [], bookingItems := [],
    nextCustomerID := 8, nextBookingID := 1, nextBookingItemID := 1 }

/-- A creation request whose embedded phone matches `demoStore`'s
customer and whose single line item references inventory item 3. -/
def demoReq : BookingReq :=
  { customerID := 0,
    customer := { id := 0, phone := "555-1000", name := "Alice", loyaltyPoints := 0 },
    courtNumber := 2, bookingDate := "2023-10-27",
    startTime := "10:00:00", endTime := "11:00:00",
    courtPrice := 20, itemsTotal := 0, discountAmount := 0, finalTotal := 0,
    paymentStatus := "",
    items := [{ itemID := 3, quantity := 2, priceAtBooking := 0 }] }

/-- A line item referencing inventory id 99, absent from `demoStore`. -/
def extraItem : ReqItem := { itemID := 99, quantity := 1, priceAtBooking := 4 }

/-- `demoReq` extended with the dangling line item `extraItem`. -/
def badReq : BookingReq := { demoReq with items := demoReq.items ++ [extraItem] }

/-- A persisted booking row with id 1. -/
def demoRow : BookingRow :=
  { id := 1, customerID := 7, courtNumber := 2, bookingDate := "2023-10-27",
    startTime := "10:00:00", endTime := "11:00:00", courtPrice := 20,
    itemsTotal := 10, discountAmount := 0, finalTotal := 30,
    paymentStatus := "PENDING" }

/-- `demoStore` after `demoRow` (with one line item) has been persisted. -/
def demoStore2 : Store :=
  { customers := [{ id := 7, phone := "555-1000", name := "Alice", loyaltyPoints := 0 }],
    inventory := [{ id := 3, name := "Racket", itemType := "rental",
                    currentPrice := 5, isActive := true }],
    bookings := [demoRow],
    bookingItems := [{ id := 1, bookingID := 1, itemID := 3, quantity := 2,
                       priceAtBooking := 5 }],
    nextCustomerID := 8, nextBookingID := 2, nextBookingItemID := 2 }

/-- An update input that supplies only `payment_status`; the other three
fields hold their Go zero values. -/
def zeroishInput : UpdateInput :=
  { startTime := "", endTime := "", paymentStatus := "PAID", courtPrice := 0 }

/-- A request whose discount exceeds court price and items (and whose
`customer_id` references `demoStore`'s existing customer 7, so the insert
satisfies every constraint): its created booking stores a negative
`final_total`. -/
def negativeReq : BookingReq :=
  { customerID := 7, customer := Customer.zero, courtNumber := 0,
    bookingDate := "", startTime := "", endTime := "", courtPrice := 0,
    itemsTotal := 0, discountAmount := 1, finalTotal := 0,
    paymentStatus := "", items := [] }

/-! ### Helper lemmas -/

theorem resolveCustomer_items (s : Store) (b : BookingReq) :
    (resolveCustomer s b).items = b.items := by
  unfold resolveCustomer
  split
  · split <;> rfl
  · rfl

theorem resolveCustomer_courtPrice (s : Store) (b : BookingReq) :
    (resolveCustomer s b).courtPrice = b.courtPrice := by
  unfold resolveCustomer
  split
  · split <;> rfl
  · rfl

theorem resolveCustomer_discountAmount (s : Store) (b : BookingReq) :
    (resolveCustomer s b).discountAmount = b.discountAmount := by
  unfold resolveCustomer
  split
  · split <;> rfl
  · rfl

theorem snapshotItems_total_eq_resolvedReqSum (s : Store) (items : List ReqItem) :
    (snapshotItems s items).2 = resolvedReqSum s (snapshotItems s items).1 := by
  induction items with
  | nil => simp [snapshotItems, resolvedReqSum]
  | cons item rest ih =>
      rw [resolvedReqSum] at ih ⊢
      cases hfind : findInventoryItem s item.itemID with
      | some invItem =>
          simp [snapshotItems, hfind, List.filter_cons, ih]
      | none =>
          simp [snapshotItems, hfind, List.filter_cons, ih]

theorem assignItemIDs_resolvedSum (s : Store) (bid : Nat) (items : List ReqItem) :
    ∀ startID, resolvedRowsSum s (assignItemIDs startID bid items) =
      resolvedReqSum s items := by
  induction items with
  | nil => intro n; simp [assignItemIDs, resolvedRowsSum, resolvedReqSum]
  | cons item rest ih =>
      intro n
      have hrec := ih (n + 1)
      rw [resolvedRowsSum, resolvedReqSum] at hrec ⊢
      cases hfind : findInventoryItem s item.itemID with
      | some invItem =>
          simp [assignItemIDs, List.filter_cons, hfind, hrec]
      | none =>
          simp [assignItemIDs, List.filter_cons, hfind, hrec]

theorem snapshotItems_mem_price (s : Store) (items : List ReqItem) :
    ∀ ri ∈ (snapshotItems s items).1, ∀ invItem,
      findInventoryItem s ri.itemID = some invItem →
      ri.priceAtBooking = invItem.currentPrice := by
  induction items with
  | nil => simp [snapshotItems]
  | cons item rest ih =>
      cases hfind : findInventoryItem s item.itemID with
      | some invItem =>
          simp only [snapshotItems, hfind, List.mem_cons]
          rintro ri (rfl | hmem) inv2 hfind2
          · simp only at hfind2
            rw [hfind] at hfind2
            cases hfind2
            rfl
          · exact ih ri hmem inv2 hfind2
      | none =>
          simp only [snapshotItems, hfind, List.mem_cons]
          rintro ri (rfl | hmem) inv2 hfind2
          · rw [hfind] at hfind2
            cases hfind2
          · exact ih ri hmem inv2 hfind2

theorem assignItemIDs_mem (bid : Nat) (items : List ReqItem) :
    ∀ startID, ∀ bi ∈ assignItemIDs startID bid items,
      ∃ ri ∈ items, bi.bookingID = bid ∧ bi.itemID = ri.itemID ∧
        bi.quantity = ri.quantity ∧ bi.priceAtBooking = ri.priceAtBooking := by
  induction items with
  | nil => simp [assignItemIDs]
  | cons item rest ih =>
      intro n bi hbi
      simp only [assignItemIDs, List.mem_cons] at hbi
      rcases hbi with rfl | hbi
      · exact ⟨item, List.mem_cons_self item rest, rfl, rfl, rfl, rfl⟩
      · obtain ⟨ri, hri, hprops⟩ := ih (n + 1) bi hbi
        exact ⟨ri, List.mem_cons_of_mem item hri, hprops⟩

theorem snapshotItems_forall₂ (s : Store) (items : List ReqItem) :
    List.Forall₂ (fun (ri1 ri : ReqItem) =>
      ri1.itemID = ri.itemID ∧ ri1.quantity = ri.quantity ∧
      (findInventoryItem s ri.itemID = none → ri1 = ri))
      (snapshotItems s items).1 items := by
  induction items with
  | nil => simp [snapshotItems]
  | cons item rest ih =>
      cases hfind : findInventoryItem s item.itemID with
      | some invItem =>
          simp only [snapshotItems, hfind]
          exact List.Forall₂.cons ⟨rfl, rfl, fun hn => by rw [hfind] at hn; cases hn⟩ ih
      | none =>
          simp only [snapshotItems, hfind]
          exact List.Forall₂.cons ⟨rfl, rfl, fun _ => rfl⟩ ih

theorem assignItemIDs_forall₂ (bid : Nat) (items : List ReqItem) :
    ∀ startID,
      List.Forall₂ (fun (bi : BookingItem) (ri : ReqItem) =>
        bi.bookingID = bid ∧ bi.itemID = ri.itemID ∧
        bi.quantity = ri.quantity ∧ bi.priceAtBooking = ri.priceAtBooking)
        (assignItemIDs startID bid items) items := by
  induction items with
  | nil => intro n; simp [assignItemIDs]
  | cons item rest ih =>
      intro n
      exact List.Forall₂.cons ⟨rfl, rfl, rfl, rfl⟩ (ih (n + 1))

theorem forall₂_comp_forall₂ {α β γ : Type} {R : α → β → Prop}
    {S : β → γ → Prop} {T : α → γ → Prop}
    (hcomp : ∀ a b c, R a b → S b c → T a c) :
    ∀ {l1 : List α} {l2 : List β} {l3 : List γ},
      List.Forall₂ R l1 l2 → List.Forall₂ S l2 l3 → List.Forall₂ T l1 l3 := by
  intro l1 l2 l3 h12 h23
  induction h12 generalizing l3 with
  | nil =>
      cases h23
      exact List.Forall₂.nil
  | cons hab htail ih =>
      cases h23 with
      | cons hbc htail2 =>
          exact List.Forall₂.cons (hcomp _ _ _ hab hbc) (ih htail2)

theorem snapshotItems_fst_append (s : Store) (l1 l2 : List ReqItem) :
    (snapshotItems s (l1 ++ l2)).1 =
      (snapshotItems s l1).1 ++ (snapshotItems s l2).1 := by
  induction l1 with
  | nil => simp [snapshotItems]
  | cons item rest ih =>
      cases hfind : findInventoryItem s item.itemID with
      | some invItem => simp [snapshotItems, hfind, ih]
      | none => simp [snapshotItems, hfind, ih]

theorem snapshotItems_snd_append (s : Store) (l1 l2 : List ReqItem) :
    (snapshotItems s (l1 ++ l2)).2 =
      (snapshotItems s l1).2 + (snapshotItems s l2).2 := by
  induction l1 with
  | nil => simp [snapshotItems]
  | cons item rest ih =>
      cases hfind : findInventoryItem s item.itemID with
      | some invItem => simp [snapshotItems, hfind, ih]; ring
      | none => simp [snapshotItems, hfind, ih]

theorem snapshotItems_unresolved_mem (s : Store) (items : List ReqItem)
    (ri : ReqItem) (hmem : ri ∈ items)
    (hnone : findInventoryItem s ri.itemID = none) :
    ri ∈ (snapshotItems s items).1 := by
  induction items with
  | nil => cases hmem
  | cons item rest ih =>
      rcases List.mem_cons.mp hmem with rfl | hmem2
      · simp only [snapshotItems, hnone]
        exact List.mem_cons_self ri _
      · cases hfind : findInventoryItem s item.itemID with
        | some invItem =>
            simp only [snapshotItems, hfind]
            exact List.mem_cons_of_mem _ (ih hmem2)
        | none =>
            simp only [snapshotItems, hfind]
            exact List.mem_cons_of_mem _ (ih hmem2)

theorem forall₂_and_right {α β : Type} {R : α → β → Prop} {Q : β → Prop} :
    ∀ {l1 : List α} {l2 : List β}, List.Forall₂ R l1 l2 →
      (∀ b ∈ l2, Q b) → List.Forall₂ (fun a b => R a b ∧ Q b) l1 l2 := by
  intro l1 l2 h12 hq
  induction h12 with
  | nil => exact List.Forall₂.nil
  | cons hab htail ih =>
      refine List.Forall₂.cons ⟨hab, hq _ (List.mem_cons_self _ _)⟩ ?_
      exact ih (fun b hb => hq b (List.mem_cons_of_mem _ hb))

/-! ### Claims -/

/-- C1: for every booking-creation request whose embedded customer phone
is non-empty: if a customer with exactly that phone exists, the customers
table is left exactly as it was (the embedded descriptor is discarded, no
second row) and a successfully created booking carries that customer's
id; if none exists, a successful creation appends the embedded descriptor
as exactly one new customer row in the same transaction and links the
booking to it, while a failed creation rolls the whole transaction back —
no customer row is persisted without its booking. -/
theorem createBooking_customer_resolution (s : Store) (req : BookingReq)
    (h : req.customer.phone ≠ "") :
    (match findCustomerByPhone s req.customer.phone with
     | some existingCust =>
        ((createBooking s req).1).customers = s.customers ∧
        (match (createBooking s req).2 with
         | .ok _ row => row.customerID = existingCust.id
         | .err _ _ => (createBooking s req).1 = s)
     | none =>
        match (createBooking s req).2 with
        | .ok _ row =>
            ((createBooking s req).1).customers =
              s.customers ++ [{ req.customer with id := s.nextCustomerID }] ∧
            row.customerID = s.nextCustomerID
        | .err _ _ => (createBooking s req).1 = s) := by
  by_cases hOK : createConstraintsOK s req
  · cases hfind : findCustomerByPhone s req.customer.phone with
    | some existingCust =>
        have hreq1 : resolveCustomer s req =
            { req with customerID := existingCust.id, customer := Customer.zero } := by
          simp [resolveCustomer, h, hfind]
        refine ⟨by simp [createBooking, hreq1, hOK], ?_⟩
        simp [createBooking, hreq1, hOK]
    | none =>
        have hreq1 : resolveCustomer s req = req := by
          simp [resolveCustomer, h, hfind]
        have hnz : ¬ (req.customer = Customer.zero) := by
          intro he
          exact h (by rw [he]; rfl)
        simp [createBooking, hreq1, hnz, hOK]
  · cases hfind : findCustomerByPhone s req.customer.phone with
    | some existingCust =>
        refine ⟨by simp [createBooking, hOK], ?_⟩
        simp [createBooking, hOK]
    | none =>
        simp [createBooking, hOK]

/-- Witness for C1: in `demoStore` the phone "555-1000" belongs to
customer 7; the creation from `demoReq` succeeds, links the booking to
customer 7, and leaves the customers table unchanged. -/
theorem createBooking_customer_resolution_witness :
    demoReq.customer.phone ≠ "" ∧
    (((createBooking demoStore demoReq).1).customers = demoStore.customers ∧
      (match (createBooking demoStore demoReq).2 with
       | .ok _ row => row.customerID = 7
       | .err _ _ => (createBooking demoStore demoReq).1 = demoStore)) :=
  ⟨by decide, createBooking_customer_resolution demoStore demoReq (by decide)⟩

/-- C2: when a creation is persisted, the booking's `items_total` equals
the sum of `price_at_booking × quantity` over exactly those newly
persisted line items whose referenced inventory item was found; unfound
references contribute nothing. (A failed creation persists nothing.) -/
theorem createBooking_itemsTotal_resolved_sum (s : Store) (req : BookingReq) :
    match (createBooking s req).2 with
    | .ok _ row =>
        ∃ newRows,
          ((createBooking s req).1).bookingItems = s.bookingItems ++ newRows ∧
          row.itemsTotal = resolvedRowsSum s newRows
    | .err _ _ => (createBooking s req).1 = s := by
  by_cases hOK : createConstraintsOK s req
  · simp only [createBooking, hOK, if_true]
    refine ⟨assignItemIDs s.nextBookingItemID s.nextBookingID
        (snapshotItems s (resolveCustomer s req).items).1, rfl, ?_⟩
    rw [assignItemIDs_resolvedSum, snapshotItems_total_eq_resolvedReqSum]
  · simp [createBooking, hOK]

/-- C3: every persisted booking satisfies
`final_total = court_price + items_total - discount_amount`, and no
non-negativity validation exists — an accepted request can store a
negative `final_total`. -/
theorem createBooking_finalTotal_formula :
    (∀ (s : Store) (req : BookingReq),
      match (createBooking s req).2 with
      | .ok _ row =>
          row.finalTotal = row.courtPrice + row.itemsTotal - row.discountAmount
      | .err _ _ => True) ∧
    (∃ (s : Store) (req : BookingReq),
      match (createBooking s req).2 with
      | .ok _ row => row.finalTotal < 0
      | .err _ _ => False) := by
  constructor
  · intro s req
    by_cases hOK : createConstraintsOK s req
    · simp [createBooking, hOK]
    · simp [createBooking, hOK]
  · refine ⟨demoStore, negativeReq, ?_⟩
    show (0 : Rat) + (snapshotItems demoStore
      (resolveCustomer demoStore negativeReq).items).2 - 1 < 0
    norm_num [resolveCustomer, negativeReq, Customer.zero, snapshotItems]

/-- C4: each persisted line item whose referenced inventory item exists
carries `price_at_booking` equal to that item's `CurrentPrice` as read at
creation time (regardless of any price supplied in the request), and a
later change of an inventory item's price leaves the stored line-item
rows untouched. -/
theorem createBooking_price_snapshot (s : Store) (req : BookingReq) :
    (match (createBooking s req).2 with
     | .ok _ _ =>
        ∃ newRows,
          ((createBooking s req).1).bookingItems = s.bookingItems ++ newRows ∧
          ∀ bi ∈ newRows, ∀ invItem,
            findInventoryItem s bi.itemID = some invItem →
            bi.priceAtBooking = invItem.currentPrice
     | .err _ _ => (createBooking s req).1 = s) ∧
    (∀ (iid : Nat) (p : Rat),
      (setInventoryPrice ((createBooking s req).1) iid p).bookingItems =
        ((createBooking s req).1).bookingItems) := by
  constructor
  · by_cases hOK : createConstraintsOK s req
    · simp only [createBooking, hOK, if_true]
      refine ⟨assignItemIDs s.nextBookingItemID s.nextBookingID
          (snapshotItems s (resolveCustomer s req).items).1, rfl, ?_⟩
      intro bi hbi invItem hfind
      obtain ⟨ri, hri, _, hid, _, hprice⟩ := assignItemIDs_mem _ _ _ bi hbi
      rw [hprice]
      refine snapshotItems_mem_price s _ ri hri invItem ?_
      rw [← hid]
      exact hfind
    · simp [createBooking, hOK]
  · intro iid p
    rfl

/-- Counterexample to C5 as stated: `demoStore` has no inventory item 99,
yet the request `badReq` carrying a line item that references it is NOT
silently tolerated — the insert of that line item violates the
foreign-key constraint on `booking_items.item_id`, the transaction rolls
back, and the caller receives a 500 error with nothing persisted. -/
theorem createBooking_missing_item_counterexample :
    findInventoryItem demoStore extraItem.itemID = none ∧
    (createBookingHandler demoStore (some badReq)).2 =
      HResult.err 500 "Could not save booking" ∧
    (createBookingHandler demoStore (some badReq)).1 = demoStore :=
  ⟨rfl, rfl, rfl⟩

/-- C5 amended: a line item referencing an absent inventory item is
silently skipped by the pricing loop — it contributes nothing to
`items_total` and no per-item error is computed — but the subsequent
`db.Create` violates the foreign-key constraint on
`booking_items.item_id`, so the whole request is rejected with
500 "Could not save booking" and nothing is persisted. -/
theorem createBooking_missing_item_rejected (s : Store) (req : BookingReq)
    (extra : ReqItem) (h : findInventoryItem s extra.itemID = none) :
    (snapshotItems s (req.items ++ [extra])).2 = (snapshotItems s req.items).2 ∧
    (createBookingHandler s (some { req with items := req.items ++ [extra] })).2 =
      HResult.err 500 "Could not save booking" ∧
    (createBookingHandler s (some { req with items := req.items ++ [extra] })).1 = s := by
  have hni : ¬ createConstraintsOK s { req with items := req.items ++ [extra] } := by
    intro hOK
    have hmem : extra ∈
        (resolveCustomer s { req with items := req.items ++ [extra] }).items := by
      rw [resolveCustomer_items]
      exact List.mem_append_right _ (List.mem_singleton_self extra)
    have hmem2 := snapshotItems_unresolved_mem s _ extra hmem h
    have hsome := hOK.1 extra hmem2
    rw [h] at hsome
    simp at hsome
  refine ⟨?_, ?_, ?_⟩
  · rw [snapshotItems_snd_append]
    simp [snapshotItems, h]
  · simp [createBookingHandler, createBooking, hni]
  · simp [createBookingHandler, createBooking, hni]

/-- Witness for C5 (amended): inventory id 99 is absent from `demoStore`;
appending `extraItem` to `demoReq` leaves the loop's `items_total`
unchanged, and the extended request is rejected with 500, the store
unchanged. -/
theorem createBooking_missing_item_rejected_witness :
    findInventoryItem demoStore extraItem.itemID = none ∧
    ((snapshotItems demoStore (demoReq.items ++ [extraItem])).2 =
        (snapshotItems demoStore demoReq.items).2 ∧
      (createBookingHandler demoStore
          (some { demoReq with items := demoReq.items ++ [extraItem] })).2 =
        HResult.err 500 "Could not save booking" ∧
      (createBookingHandler demoStore
          (some { demoReq with items := demoReq.items ++ [extraItem] })).1 =
        demoStore) :=
  ⟨by decide,
    createBooking_missing_item_rejected demoStore demoReq extraItem (by decide)⟩


/-- C6: a partial update on an absent booking id yields 404 with the
store unchanged; on an existing booking it rewrites only that row, every
non-updatable column of the row — including the derived `final_total`,
even when `court_price` is supplied — is unchanged, and each supplied
(non-zero) field of the input is applied. -/
theorem updateBooking_partial_frame (s : Store) (id : Nat) (input : UpdateInput) :
    (s.bookings.find? (fun b => b.id = id) = none →
      updateBooking s id input = (s, .err 404 "Booking not found")) ∧
    (∀ b, s.bookings.find? (fun b2 => b2.id = id) = some b →
      ∃ b1, (updateBooking s id input).2 = HResult.ok 200 b1 ∧
        ((updateBooking s id input).1).bookings =
          s.bookings.map (fun b2 => if b2.id = id then b1 else b2) ∧
        ((updateBooking s id input).1).customers = s.customers ∧
        ((updateBooking s id input).1).bookingItems = s.bookingItems ∧
        ((updateBooking s id input).1).inventory = s.inventory ∧
        b1.id = b.id ∧ b1.customerID = b.customerID ∧
        b1.courtNumber = b.courtNumber ∧ b1.bookingDate = b.bookingDate ∧
        b1.itemsTotal = b.itemsTotal ∧ b1.discountAmount = b.discountAmount ∧
        b1.finalTotal = b.finalTotal ∧
        (input.startTime ≠ "" → b1.startTime = input.startTime) ∧
        (input.endTime ≠ "" → b1.endTime = input.endTime) ∧
        (input.paymentStatus ≠ "" → b1.paymentStatus = input.paymentStatus) ∧
        (input.courtPrice ≠ 0 → b1.courtPrice = input.courtPrice)) := by
  constructor
  · intro hnone
    simp [updateBooking, hnone]
  · intro b hb
    refine ⟨applyUpdates b input, ?_, ?_, ?_, ?_, ?_, rfl, rfl, rfl, rfl, rfl, rfl,
      rfl, ?_, ?_, ?_, ?_⟩
    · simp [updateBooking, hb]
    · simp [updateBooking, hb]
    · simp [updateBooking, hb]
    · simp [updateBooking, hb]
    · simp [updateBooking, hb]
    · intro hne
      simp [applyUpdates, hne]
    · intro hne
      simp [applyUpdates, hne]
    · intro hne
      simp [applyUpdates, hne]
    · intro hne
      simp [applyUpdates, hne]

/-- C7: deleting an id no booking carries yields 404 (and the store is
returned unchanged); deleting an existing booking removes exactly that
row and every `BookingItem` child with its `booking_id` (no orphaned line
items), touches no other table, and answers 200 with the confirmation
message. -/
theorem deleteBooking_cascade (s : Store) (id : Nat) :
    ((∀ b ∈ s.bookings, ¬ b.id = id) →
      deleteBooking s id = (s, .err 404 "Booking not found")) ∧
    ((∃ b ∈ s.bookings, b.id = id) →
      ((deleteBooking s id).2 = HResult.ok 200 "Booking deleted successfully" ∧
        (∀ b ∈ ((deleteBooking s id).1).bookings, ¬ b.id = id) ∧
        (∀ it ∈ ((deleteBooking s id).1).bookingItems, ¬ it.bookingID = id) ∧
        ((deleteBooking s id).1).bookings =
          s.bookings.filter (fun b => ¬ b.id = id) ∧
        ((deleteBooking s id).1).bookingItems =
          s.bookingItems.filter (fun it => ¬ it.bookingID = id) ∧
        ((deleteBooking s id).1).customers = s.customers ∧
        ((deleteBooking s id).1).inventory = s.inventory)) := by
  constructor
  · intro hnone
    have hfil : s.bookings.filter (fun b => b.id = id) = [] := by
      rw [List.filter_eq_nil_iff]
      intro b hb
      simpa using hnone b hb
    simp [deleteBooking, hfil]
  · rintro ⟨b0, hb0, hid0⟩
    have hne : ¬ ((s.bookings.filter (fun b => b.id = id)).length = 0) := by
      rw [List.length_eq_zero, List.filter_eq_nil_iff]
      push_neg
      exact ⟨b0, hb0, by simpa using hid0⟩
    refine ⟨by simp [deleteBooking, hne], ?_, ?_, by simp [deleteBooking, hne],
      by simp [deleteBooking, hne], by simp [deleteBooking, hne],
      by simp [deleteBooking, hne]⟩
    · intro b hbmem
      simp only [deleteBooking, if_neg hne] at hbmem
      simpa using (List.mem_filter.mp hbmem).2
    · intro it hitmem
      simp only [deleteBooking, if_neg hne] at hitmem
      simpa using (List.mem_filter.mp hitmem).2

/-- C8: `GET /bookings` with an empty `booking_date` parameter is
rejected with 400 and an error body, without consulting the store (the
result is the same for every store); with a non-empty parameter it
returns 200 and exactly the bookings whose stored `booking_date` equals
the parameter. -/
theorem getBookings_date_filter :
    (∀ s1 s2 : Store, getBookings s1 "" = getBookings s2 "") ∧
    (∀ s : Store,
      getBookings s "" = .err 400 "Please provide a booking_date parameter") ∧
    (∀ (s : Store) (d : String), ¬ d = "" →
      ∃ l, getBookings s d = HResult.ok 200 l ∧
        ∀ fb, fb ∈ l ↔
          ∃ b ∈ s.bookings, b.bookingDate = d ∧ fb = preloadBooking s b) := by
  refine ⟨fun s1 s2 => rfl, fun s => rfl, ?_⟩
  intro s d hd
  refine ⟨(s.bookings.filter (fun b => b.bookingDate = d)).map (preloadBooking s),
    by simp [getBookings, hd], ?_⟩
  intro fb
  constructor
  · intro hmem
    obtain ⟨b, hbmem, rfl⟩ := List.mem_map.mp hmem
    have := List.mem_filter.mp hbmem
    exact ⟨b, this.1, by simpa using this.2, rfl⟩
  · rintro ⟨b, hbmem, hdate, rfl⟩
    exact List.mem_map.mpr ⟨b, List.mem_filter.mpr ⟨hbmem, by simpa using hdate⟩, rfl⟩

/-- Counterexample to C9 as stated: `badReq` carries the line item
`extraItem` whose inventory id 99 is absent from `demoStore`; that item
is NOT persisted as a `BookingItem` row — the creation fails with 500 and
the `booking_items` table is exactly as before. -/
theorem createBooking_unresolved_item_counterexample :
    extraItem ∈ badReq.items ∧
    findInventoryItem demoStore extraItem.itemID = none ∧
    (createBooking demoStore badReq).2 =
      HResult.err 500 "Could not save booking" ∧
    ((createBooking demoStore badReq).1).bookingItems =
      demoStore.bookingItems := by
  refine ⟨?_, rfl, rfl, rfl⟩
  show extraItem ∈ demoReq.items ++ [extraItem]
  exact List.mem_append_right _ (List.mem_singleton_self extraItem)

/-- C9 amended: a request line item whose referenced inventory item does
not exist is NOT persisted — its insert violates the foreign-key
constraint `AutoMigrate` installs on `booking_items.item_id`, the
transaction rolls back (the store is unchanged) and 500 is returned; when
the creation is persisted, every request line item had resolved, and the
persisted rows correspond one-to-one and in order to the request items,
carrying their `item_id` and `quantity` and belonging to the booking. -/
theorem createBooking_unresolved_item_not_persisted (s : Store) (req : BookingReq) :
    ((∃ ri ∈ req.items, findInventoryItem s ri.itemID = none) →
      (createBooking s req).2 = HResult.err 500 "Could not save booking" ∧
      (createBooking s req).1 = s) ∧
    (match (createBooking s req).2 with
     | .ok _ row =>
        ∃ newRows,
          ((createBooking s req).1).bookingItems = s.bookingItems ++ newRows ∧
          List.Forall₂ (fun (bi : BookingItem) (ri : ReqItem) =>
              (bi.bookingID = row.id ∧ bi.itemID = ri.itemID ∧
                bi.quantity = ri.quantity) ∧
              (findInventoryItem s ri.itemID).isSome = true)
            newRows req.items
     | .err _ _ => (createBooking s req).1 = s) := by
  constructor
  · rintro ⟨ri, hmem, hnone⟩
    have hni : ¬ createConstraintsOK s req := by
      intro hOK
      have hmem2 : ri ∈ (snapshotItems s (resolveCustomer s req).items).1 := by
        rw [resolveCustomer_items]
        exact snapshotItems_unresolved_mem s _ ri hmem hnone
      have hsome := hOK.1 ri hmem2
      rw [hnone] at hsome
      simp at hsome
    exact ⟨by simp [createBooking, hni], by simp [createBooking, hni]⟩
  · by_cases hOK : createConstraintsOK s req
    · have hall : ∀ ri ∈ req.items, (findInventoryItem s ri.itemID).isSome = true := by
        intro ri hmem
        cases hfind : findInventoryItem s ri.itemID with
        | some invItem => rfl
        | none =>
            have hmem2 : ri ∈ (snapshotItems s (resolveCustomer s req).items).1 := by
              rw [resolveCustomer_items]
              exact snapshotItems_unresolved_mem s _ ri hmem hfind
            have hsome := hOK.1 ri hmem2
            rw [hfind] at hsome
            simp at hsome
      have h2 := snapshotItems_forall₂ s (resolveCustomer s req).items
      have h1 := assignItemIDs_forall₂ s.nextBookingID
        (snapshotItems s (resolveCustomer s req).items).1 s.nextBookingItemID
      have hcomp : List.Forall₂ (fun (bi : BookingItem) (ri : ReqItem) =>
          bi.bookingID = s.nextBookingID ∧ bi.itemID = ri.itemID ∧
          bi.quantity = ri.quantity)
          (assignItemIDs s.nextBookingItemID s.nextBookingID
            (snapshotItems s (resolveCustomer s req).items).1)
          (resolveCustomer s req).items := by
        refine forall₂_comp_forall₂ ?_ h1 h2
        rintro bi ri1 ri ⟨hbid, hiid, hqty, _⟩ ⟨hiid2, hqty2, _⟩
        exact ⟨hbid, hiid.trans hiid2, hqty.trans hqty2⟩
      have hall2 : ∀ ri ∈ (resolveCustomer s req).items,
          (findInventoryItem s ri.itemID).isSome = true := by
        rw [resolveCustomer_items]
        exact hall
      have hfinal := forall₂_and_right hcomp hall2
      simp only [createBooking, hOK, if_true]
      refine ⟨assignItemIDs s.nextBookingItemID s.nextBookingID
        (snapshotItems s (resolveCustomer s req).items).1, rfl, ?_⟩
      rw [← resolveCustomer_items s req]
      exact hfinal
    · simp [createBooking, hOK]


/-- C10: on an existing booking, a partial-update field holding its Go
zero value (empty string, zero price) is treated as not supplied and left
as stored; consequently this operation cannot set `court_price` to 0 or a
time or payment-status field to the empty string unless it already held
that value. -/
theorem updateBooking_zero_fields_ignored (s : Store) (id : Nat)
    (input : UpdateInput) (b : BookingRow)
    (hb : s.bookings.find? (fun b2 => b2.id = id) = some b) :
    (updateBooking s id input).2 = HResult.ok 200 (applyUpdates b input) ∧
    (input.startTime = "" → (applyUpdates b input).startTime = b.startTime) ∧
    (input.endTime = "" → (applyUpdates b input).endTime = b.endTime) ∧
    (input.paymentStatus = "" →
      (applyUpdates b input).paymentStatus = b.paymentStatus) ∧
    (input.courtPrice = 0 → (applyUpdates b input).courtPrice = b.courtPrice) ∧
    ((applyUpdates b input).startTime = "" → b.startTime = "") ∧
    ((applyUpdates b input).endTime = "" → b.endTime = "") ∧
    ((applyUpdates b input).paymentStatus = "" → b.paymentStatus = "") ∧
    ((applyUpdates b input).courtPrice = 0 → b.courtPrice = 0) := by
  refine ⟨by simp [updateBooking, hb], ?_, ?_, ?_, ?_, ?_, ?_, ?_, ?_⟩
  · intro h0
    simp [applyUpdates, h0]
  · intro h0
    simp [applyUpdates, h0]
  · intro h0
    simp [applyUpdates, h0]
  · intro h0
    simp [applyUpdates, h0]
  · intro h0
    simp only [applyUpdates] at h0
    by_cases hc : input.startTime = ""
    · simpa [hc] using h0
    · simp [hc] at h0
  · intro h0
    simp only [applyUpdates] at h0
    by_cases hc : input.endTime = ""
    · simpa [hc] using h0
    · simp [hc] at h0
  · intro h0
    simp only [applyUpdates] at h0
    by_cases hc : input.paymentStatus = ""
    · simpa [hc] using h0
    · simp [hc] at h0
  · intro h0
    simp only [applyUpdates] at h0
    by_cases hc : input.courtPrice = 0
    · simpa [hc] using h0
    · simp [hc] at h0

/-- Witness for C10: booking 1 of `demoStore2` updated with
`zeroishInput` (only `payment_status` supplied): the result is 200 with
the row rewritten by `applyUpdates`, and the zero-valued `start_time` and
`court_price` inputs leave those columns as stored. -/
theorem updateBooking_zero_fields_ignored_witness :
    demoStore2.bookings.find? (fun b2 => b2.id = 1) = some demoRow ∧
    ((updateBooking demoStore2 1 zeroishInput).2 =
        HResult.ok 200 (applyUpdates demoRow zeroishInput) ∧
      (applyUpdates demoRow zeroishInput).startTime = demoRow.startTime ∧
      (applyUpdates demoRow zeroishInput).courtPrice = demoRow.courtPrice) :=
  ⟨by decide,
    (updateBooking_zero_fields_ignored demoStore2 1 zeroishInput demoRow (by decide)).1,
    (updateBooking_zero_fields_ignored demoStore2 1 zeroishInput demoRow (by decide)).2.1 rfl,
    (updateBooking_zero_fields_ignored demoStore2 1 zeroishInput demoRow
      (by decide)).2.2.2.2.1 rfl⟩
